import Mathlib

/-!
Verification of the borgtools backup and report scripts.

This file is a shallow embedding of the decision logic of the two scripts
`backup.py` and `notifier.py`:

* `backup.py`: the workday scheduling gate, the construction of the
  create / prune / list argument vectors, the command runner with its
  dry-run mode and its freshly built subprocess environment, and the
  per-spec backup loop.

* `notifier.py`: the metadata fetch (`get_backup_stats`), the per-repository
  anomaly evaluation in `generate_one_report` (staleness, emptiness and
  drift thresholds, good/bad cell classification), and the report loop
  `generate_reports`.

External effects are made explicit: wall-clock readings become function
parameters (`clock`, `stamp`, `now`), the archive engine's behaviour becomes
an oracle function (`exitOf` for exit statuses, `borgInfo` for metadata
queries), and subprocess spawns / log lines become data returned by the
embedded functions.  Fallible code paths (an exception propagating in
Python) are modelled with `Except`.  Timestamps are integers counting
seconds; the two-day staleness threshold is `2 * 24 * 60 * 60` seconds.
Python's float arithmetic on the drift ratios is modelled with `ℚ`.
-/

/-- One backup specification from the YAML configuration
(`remote-repo`, `local-dirs`, `exclude`, `extra-args`, `is-slow`). -/
structure BackupSpec where
  remoteRepo : String
  localDirs : List String
  exclude : List String
  extraArgs : List String
  isSlow : Bool
  deriving DecidableEq, Repr

/-- The validated configuration object shared by both scripts. -/
structure Config where
  backupHost : String
  backupPassword : String
  archiveNameFormat : String
  backupSpecs : List BackupSpec
  emailNumBackups : Nat
  emailFrom : String
  emailTo : List String
  deriving DecidableEq, Repr

/-- `cfg` with its secret replaced; every other field is unchanged. -/
def setPassword (cfg : Config) (p : String) : Config :=
  { cfg with backupPassword := p }

/-! ## backup.py -/

/-- `is_workday = now.hour >= 7 and now.hour <= 23` (backup.py line 77). -/
def is_workday (hour : Nat) : Bool :=
  decide (7 ≤ hour) && decide (hour ≤ 23)

/-- The schedule gate: a spec runs unless the hour is in the workday window
and the spec is marked slow (the skip condition of backup.py line 81). -/
def shouldRun (hour : Nat) (spec : BackupSpec) : Bool :=
  !(is_workday hour && spec.isSlow)

/-- A spawned subprocess: the argument vector and the process environment
passed to it. -/
structure Spawn where
  cmdline : List String
  env : List (String × String)
  deriving DecidableEq, Repr

/-- The observable behaviour of one call to `run` (backup.py lines 14-26):
the log line it emits (verb plus argument vector) and the subprocess it
spawns, if any, together with that subprocess's exit status. -/
structure RunResult where
  logVerb : String
  loggedArgv : List String
  spawned : Option Spawn
  exitStatus : Option Int
  deriving DecidableEq, Repr

/-- `run(args, config, cmdline)` from backup.py: logs the argument vector
(with verb `would run` in dry mode, `running` otherwise) and, only when not
in dry mode, spawns the subprocess with an environment built from scratch
holding exactly `BORG_PASSPHRASE`.  The external process's exit status is
given by the oracle `exitOf`; the source ignores it entirely, but it is
recorded here so that independence from it can be stated. -/
def run (exitOf : List String → Int) (dryRun : Bool) (config : Config)
    (cmdline : List String) : RunResult :=
  { logVerb := if dryRun then ("would run") else ("running")
    loggedArgv := cmdline
    spawned :=
      if dryRun then none
      else some { cmdline := cmdline
                  env := [(("BORG_PASSPHRASE"), config.backupPassword)] }
    exitStatus := if dryRun then none else some (exitOf cmdline) }

/-- The `borg create` argument vector built in backup.py lines 37-49. -/
def createCmdline (config : Config) (spec : BackupSpec) (stamp : String) :
    List String :=
  let remoteRepo := config.backupHost ++ (":") ++ spec.remoteRepo
  let archiveName := remoteRepo ++ ("::") ++ stamp
  [("borg"), ("create"), ("--stats"), ("--exclude-caches")]
    ++ spec.extraArgs
    ++ (spec.exclude.map (fun e => [("--exclude"), e])).flatten
    ++ [archiveName]
    ++ spec.localDirs

/-- The `borg prune` argument vector built in backup.py lines 54-63. -/
def pruneCmdline (config : Config) (spec : BackupSpec) : List String :=
  let remoteRepo := config.backupHost ++ (":") ++ spec.remoteRepo
  [("borg"), ("prune"), ("--stats"), remoteRepo,
   ("--keep-hourly"), ("50"),
   ("--keep-daily"), ("90"),
   ("--keep-weekly"), ("90"),
   ("--keep-monthly"), ("1000")]

/-- The `borg list` argument vector built in backup.py lines 67-71. -/
def listCmdline (config : Config) (spec : BackupSpec) : List String :=
  [("borg"), ("list"), config.backupHost ++ (":") ++ spec.remoteRepo]

/-- `backup_one` (backup.py lines 28-72): unconditionally drives the three
steps create, prune, list through `run`, in that order; no result of any
step is consulted.  `stamp` is the timestamp-formatted archive suffix
(`now.strftime(config['archive-name-format'])`). -/
def backup_one (exitOf : List String → Int) (dryRun : Bool) (config : Config)
    (spec : BackupSpec) (stamp : String) : List RunResult :=
  [run exitOf dryRun config (createCmdline config spec stamp),
   run exitOf dryRun config (pruneCmdline config spec),
   run exitOf dryRun config (listCmdline config spec)]

/-- The per-spec outcome of the batch loop: either a logged skip or the
results of the three pipeline steps. -/
inductive SpecOutcome where
  | skipped (repo : String)
  | ran (results : List RunResult)
  deriving DecidableEq, Repr

/-- Whether the outcome is a schedule skip. -/
def SpecOutcome.isSkipped : SpecOutcome → Bool
  | .skipped _ => true
  | .ran _ => false

/-- The argument vectors of the commands an outcome passed to `run`. -/
def SpecOutcome.cmds : SpecOutcome → List (List String)
  | .skipped _ => []
  | .ran rs => rs.map RunResult.loggedArgv

/-- The log lines an outcome produced: the skip message, or one
(verb, argument vector) line per `run` call.  Spawn environments are not
part of the log stream. -/
def SpecOutcome.loggedLines : SpecOutcome → List (String × List String)
  | .skipped repo => [(("Skipping mid-day backup of ") ++ repo, [])]
  | .ran rs => rs.map (fun r => (r.logVerb, r.loggedArgv))

/-- The loop body of `backup` (backup.py lines 79-84), with the explicit
position index used to look up each spec's own `datetime.now()` reading via
`stamp`.  The skip condition reads only `startHour`, the hour computed once
before the loop. -/
def backupLoop (exitOf : List String → Int) (dryRun : Bool) (config : Config)
    (startHour : Nat) (stamp : Nat → String) :
    Nat → List BackupSpec → List SpecOutcome
  | _, [] => []
  | i, spec :: rest =>
    (if is_workday startHour && spec.isSlow then
      SpecOutcome.skipped spec.remoteRepo
     else
      SpecOutcome.ran (backup_one exitOf dryRun config spec (stamp i)))
      :: backupLoop exitOf dryRun config startHour stamp (i + 1) rest

/-- `backup(args, config)` (backup.py lines 74-86): reads the clock once
(`clock 0`), computes the workday flag from that single reading, and
iterates all configured specs.  `clock` gives the local hour at each
successive wall-clock reading the run could make; the source only ever
consults reading 0 for scheduling. -/
def backup (exitOf : List String → Int) (dryRun : Bool) (config : Config)
    (clock : Nat → Nat) (stamp : Nat → String) : List SpecOutcome :=
  backupLoop exitOf dryRun config (clock 0) stamp 0 config.backupSpecs

/-! ## notifier.py: data model -/

/-- One parsed entry of the `archives` array returned by `borg info --json`:
`start` (timestamp, modelled in seconds), `stats.nfiles`,
`stats.original_size`, `stats.compressed_size`. -/
structure ArchiveSnapshot where
  timestamp : Int
  nfiles : Nat
  originalSize : Nat
  compressedSize : Nat
  deriving DecidableEq, Repr

/-- The staleness threshold `pd.Timedelta(days=2)`, in seconds. -/
def twoDays : Int := 2 * 24 * 60 * 60

/-- Good/bad classification of one report cell (the `good` / `bad` CSS
classes of notifier.py). -/
inductive CellClass where
  | good
  | bad
  deriving DecidableEq, Repr

/-- The distinct warning messages `generate_one_report` can emit, keeping
the data interpolated into each message. -/
inductive WarningKind where
  | stale (age : Int)
  | fewFiles
  | fewBytes
  | driftFiles (pct : ℚ)
  | driftBytes (pct : ℚ)
  deriving DecidableEq, Repr

/-- A warning as produced by `MailMessage.warn`: the repository identifier
paired with the message. -/
abbrev Warning := String × WarningKind

/-- One row of the summary table, with each classified cell. -/
structure ReportRow where
  partition : String
  date : Int
  age : Int
  ageClass : CellClass
  nfiles : Nat
  nfilesClass : CellClass
  originalSize : Nat
  osizeClass : CellClass
  compressedSize : Nat
  deriving DecidableEq, Repr

/-- The anomaly evaluation of one repository: its table row and the
warnings it raised, in emission order. -/
structure Report where
  row : ReportRow
  warnings : List Warning
  deriving DecidableEq, Repr

/-- The assembled digest: all warnings (header), all table rows, and the
per-repository trend charts (identified by repository). -/
structure Digest where
  warnings : List Warning
  rows : List ReportRow
  graphs : List String
  deriving DecidableEq, Repr

/-! ## notifier.py: report generation -/

/-- `archive['remote-repo'].split('/')[-1]` (notifier.py line 150). -/
def lastComponent (s : String) : String :=
  ((s.splitOn ("/")).reverse).headD ("")

/-- `df.iloc[df['Date'].idxmin()]` on a non-empty frame: the first
snapshot attaining the minimal timestamp. -/
def earliestOf (h : ArchiveSnapshot) (t : List ArchiveSnapshot) :
    ArchiveSnapshot :=
  t.foldl (fun acc x => if x.timestamp < acc.timestamp then x else acc) h

/-- `df.iloc[df['Date'].idxmax()]` on a non-empty frame: the first
snapshot attaining the maximal timestamp. -/
def latestOf (h : ArchiveSnapshot) (t : List ArchiveSnapshot) :
    ArchiveSnapshot :=
  t.foldl (fun acc x => if acc.timestamp < x.timestamp then x else acc) h

/-- The staleness warning of notifier.py lines 158-159: emitted exactly
when the latest snapshot is strictly more than two days old. -/
def ageWarnList (now : Int) (repo : String) (latest : ArchiveSnapshot) :
    List Warning :=
  if twoDays < now - latest.timestamp then
    [(repo, WarningKind.stale (now - latest.timestamp))]
  else []

/-- The few-files warning of notifier.py lines 167-168. -/
def fileWarnList (repo : String) (latest : ArchiveSnapshot) : List Warning :=
  if latest.nfiles < 100 then [(repo, WarningKind.fewFiles)] else []

/-- The few-bytes warning of notifier.py lines 176-177. -/
def sizeWarnList (repo : String) (latest : ArchiveSnapshot) : List Warning :=
  if latest.originalSize < 10000 then [(repo, WarningKind.fewBytes)] else []

/-- The file-count drift warning of notifier.py lines 189-192: guarded by
`earliest.nfiles > 0`, raised when the relative change exceeds 20 percent
in absolute value. -/
def fileDriftList (repo : String) (earliest latest : ArchiveSnapshot) :
    List Warning :=
  if 0 < earliest.nfiles then
    if 1 / 5 < |(latest.nfiles : ℚ) / (earliest.nfiles : ℚ) - 1| then
      [(repo, WarningKind.driftFiles
        ((latest.nfiles : ℚ) / (earliest.nfiles : ℚ) - 1))]
    else []
  else []

/-- The byte-size drift warning of notifier.py lines 194-197: the identical
rule applied to `stats.original_size`. -/
def byteDriftList (repo : String) (earliest latest : ArchiveSnapshot) :
    List Warning :=
  if 0 < earliest.originalSize then
    if 1 / 5 < |(latest.originalSize : ℚ) / (earliest.originalSize : ℚ) - 1| then
      [(repo, WarningKind.driftBytes
        ((latest.originalSize : ℚ) / (earliest.originalSize : ℚ) - 1))]
    else []
  else []

/-- The body of `generate_one_report` after earliest/latest extraction
(notifier.py lines 147-197): builds the classified row and emits the five
warning groups in source order. -/
def reportFor (now : Int) (repo : String)
    (earliest latest : ArchiveSnapshot) : Report :=
  { row :=
      { partition := lastComponent repo
        date := latest.timestamp
        age := now - latest.timestamp
        ageClass :=
          if twoDays < now - latest.timestamp then CellClass.bad
          else CellClass.good
        nfiles := latest.nfiles
        nfilesClass :=
          if latest.nfiles < 100 then CellClass.bad else CellClass.good
        originalSize := latest.originalSize
        osizeClass :=
          if latest.originalSize < 10000 then CellClass.bad
          else CellClass.good
        compressedSize := latest.compressedSize }
    warnings :=
      ageWarnList now repo latest ++ fileWarnList repo latest
        ++ sizeWarnList repo latest ++ fileDriftList repo earliest latest
        ++ byteDriftList repo earliest latest }

/-- `generate_one_report` (notifier.py lines 138-197) for an already
fetched history.  On an empty `archives` array the source dies with an
uncaught pandas error (`df['start']` / `idxmin` on an empty frame), which
the embedding renders as `Except.error`. -/
def generate_one_report (now : Int) (spec : BackupSpec)
    (history : List ArchiveSnapshot) : Except String Report :=
  match history with
  | [] => Except.error ("attempt to get argmin of an empty sequence")
  | h :: t => Except.ok (reportFor now spec.remoteRepo (earliestOf h t) (latestOf h t))

/-- The `borg info --json` argument vector built in notifier.py
lines 64-71. -/
def infoCmd (config : Config) (spec : BackupSpec) : List String :=
  [("borg"), ("info"),
   config.backupHost ++ (":") ++ spec.remoteRepo,
   ("--last"), toString config.emailNumBackups, ("--json")]

/-- The observable effects of one `get_backup_stats` call: the log line
written to stderr and the freshly built subprocess environment. -/
structure FetchCall where
  loggedCmd : String
  env : List (String × String)
  deriving DecidableEq, Repr

/-- `get_backup_stats` (notifier.py lines 60-80) in live mode: logs the
joined command, spawns `borg info` with an environment holding exactly
`BORG_PASSPHRASE`, and parses the result.  The archive engine's response
(or its failure: a non-zero exit raised by `check_output`, or unparseable
JSON) is the oracle `borgInfo`. -/
def get_backup_stats
    (borgInfo : List String → Except String (List ArchiveSnapshot))
    (config : Config) (spec : BackupSpec) :
    FetchCall × Except String (List ArchiveSnapshot) :=
  ({ loggedCmd := ("running: ") ++ String.intercalate (" ") (infoCmd config spec)
     env := [(("BORG_PASSPHRASE"), config.backupPassword)] },
   borgInfo (infoCmd config spec))

/-- The loop of `generate_reports` (notifier.py lines 296-297): one
`generate_one_report` per configured spec, in order.  There is no exception
handling anywhere on this path, so the first failing fetch or evaluation
propagates and aborts the whole report; the embedding returns the log lines
emitted up to that point and the `Except` outcome. -/
def reportsLoop (borgInfo : List String → Except String (List ArchiveSnapshot))
    (now : Int) (config : Config) :
    List BackupSpec → List String × Except String Digest
  | [] => ([], Except.ok { warnings := [], rows := [], graphs := [] })
  | spec :: rest =>
    let logLine := ("running: ") ++ String.intercalate (" ") (infoCmd config spec)
    match borgInfo (infoCmd config spec) with
    | Except.error e => ([logLine], Except.error e)
    | Except.ok hist =>
      match generate_one_report now spec hist with
      | Except.error e => ([logLine], Except.error e)
      | Except.ok rep =>
        match reportsLoop borgInfo now config rest with
        | (logs, Except.error e) => (logLine :: logs, Except.error e)
        | (logs, Except.ok d) =>
          (logLine :: logs,
           Except.ok { warnings := rep.warnings ++ d.warnings
                       rows := rep.row :: d.rows
                       graphs := spec.remoteRepo :: d.graphs })

/-- `generate_reports` (notifier.py lines 240-302): the digest assembly
over all configured specs, returning the fetch log lines and either the
digest or the error that aborted it. -/
def generate_reports
    (borgInfo : List String → Except String (List ArchiveSnapshot))
    (now : Int) (config : Config) : List String × Except String Digest :=
  reportsLoop borgInfo now config config.backupSpecs

/-! ## Theorems -/

/-- Claim C3: for every timestamp whose local hour is in [7, 23] and every
spec marked slow, the schedule gate declines; for every hour in [0, 6] a
slow spec runs; a normal-cadence spec runs at every hour. -/
theorem shouldRun_schedule_gate (spec : BackupSpec) (hour : Nat) :
    (spec.isSlow = true → 7 ≤ hour → hour ≤ 23 → shouldRun hour spec = false)
    ∧ (hour ≤ 6 → shouldRun hour spec = true)
    ∧ (spec.isSlow = false → shouldRun hour spec = true) := by
  refine ⟨fun hs h7 h23 => ?_, fun h6 => ?_, fun hn => ?_⟩
  · simp [shouldRun, is_workday, hs, h7, h23]
  · have h7 : ¬ (7 ≤ hour) := by omega
    simp [shouldRun, is_workday, h7]
  · simp [shouldRun, hn]

/-- A slow spec used to instantiate the schedule-gate and batch theorems on
concrete inputs. -/
def slowSpec : BackupSpec :=
  { remoteRepo := ("slow-repo"), localDirs := [("/data")], exclude := [],
    extraArgs := [], isSlow := true }

/-- A normal-cadence spec for concrete instantiations. -/
def normalSpec : BackupSpec :=
  { remoteRepo := ("fast-repo"), localDirs := [("/home")], exclude := [],
    extraArgs := [], isSlow := false }

/-- Witness for claim C3 at hours 10 and 3: the slow spec is declined at
hour 10 and runs at hour 3; the normal spec runs at hour 10. -/
theorem shouldRun_schedule_gate_witness :
    shouldRun 10 slowSpec = false
    ∧ shouldRun 3 slowSpec = true
    ∧ shouldRun 10 normalSpec = true :=
  ⟨(shouldRun_schedule_gate slowSpec 10).1 rfl (by decide) (by decide),
   (shouldRun_schedule_gate slowSpec 3).2.1 (by decide),
   (shouldRun_schedule_gate normalSpec 10).2.2 rfl⟩

/-- Claim C7: in dry mode the command runner spawns no subprocess, and the
argument vector it logs is exactly the one live mode passes to the spawned
process (and both modes log the same vector). -/
theorem run_dry_mode_no_spawn (exitOf : List String → Int) (cfg : Config)
    (cmdline : List String) :
    (run exitOf true cfg cmdline).spawned = none
    ∧ ∃ sp, (run exitOf false cfg cmdline).spawned = some sp
        ∧ (run exitOf true cfg cmdline).loggedArgv = sp.cmdline
        ∧ (run exitOf false cfg cmdline).loggedArgv = sp.cmdline :=
  ⟨rfl, ⟨_, rfl, rfl, rfl⟩⟩

/-- Claim C9: for every configuration and every spec, regardless of the
spec's content, the prune invocation (the second command of the pipeline)
carries exactly the four retention quota flags with the fixed literal
values 50 hourly, 90 daily, 90 weekly, 1000 monthly. -/
theorem prune_fixed_retention (exitOf : List String → Int) (dryRun : Bool)
    (cfg : Config) (spec : BackupSpec) (stamp : String) :
    (backup_one exitOf dryRun cfg spec stamp).map RunResult.loggedArgv
      = [createCmdline cfg spec stamp,
         [("borg"), ("prune"), ("--stats"),
          cfg.backupHost ++ (":") ++ spec.remoteRepo,
          ("--keep-hourly"), ("50"), ("--keep-daily"), ("90"),
          ("--keep-weekly"), ("90"), ("--keep-monthly"), ("1000")],
         listCmdline cfg spec] := rfl

/-- Claim C1: on an empty history the anomaly evaluation does not produce a
well-defined no-data classification; it fails (the source raises an
uncaught pandas error, modelled as `Except.error`).  This exhibits the
failing input of the recorded code bug. -/
theorem generate_one_report_empty_history_error (now : Int)
    (spec : BackupSpec) :
    generate_one_report now spec []
      = Except.error ("attempt to get argmin of an empty sequence") := rfl

/-- Every pipeline run issues the create, prune and list argument vectors,
in that order. -/
lemma backup_one_cmds (exitOf : List String → Int) (dryRun : Bool)
    (cfg : Config) (spec : BackupSpec) (stamp : String) :
    (backup_one exitOf dryRun cfg spec stamp).map RunResult.loggedArgv
      = [createCmdline cfg spec stamp, pruneCmdline cfg spec,
         listCmdline cfg spec] := rfl

/-- The sequence of issued commands does not depend on the exit-status
oracle: the loop never consults any exit status. -/
lemma backupLoop_map_cmds (exitOf exitOf' : List String → Int) (dryRun : Bool)
    (cfg : Config) (hour : Nat) (stamp : Nat → String) :
    ∀ (l : List BackupSpec) (i : Nat),
      (backupLoop exitOf dryRun cfg hour stamp i l).map SpecOutcome.cmds
        = (backupLoop exitOf' dryRun cfg hour stamp i l).map SpecOutcome.cmds := by
  intro l
  induction l with
  | nil => intro i; rfl
  | cons spec rest ih =>
    intro i
    simp only [backupLoop, List.map_cons]
    rw [ih (i + 1)]
    rcases Bool.eq_false_or_eq_true (is_workday hour && spec.isSlow) with hc | hc <;>
      rw [hc] <;> rfl

/-- The loop produces one outcome per configured spec. -/
lemma backupLoop_length (exitOf : List String → Int) (dryRun : Bool)
    (cfg : Config) (hour : Nat) (stamp : Nat → String) :
    ∀ (l : List BackupSpec) (i : Nat),
      (backupLoop exitOf dryRun cfg hour stamp i l).length = l.length := by
  intro l
  induction l with
  | nil => intro i; rfl
  | cons spec rest ih =>
    intro i
    simp only [backupLoop, List.length_cons, ih (i + 1)]

/-- Unfolding equation for the loop on a non-empty spec list. -/
lemma backupLoop_cons (exitOf : List String → Int) (dryRun : Bool)
    (cfg : Config) (hour : Nat) (stamp : Nat → String) (i : Nat)
    (spec : BackupSpec) (rest : List BackupSpec) :
    backupLoop exitOf dryRun cfg hour stamp i (spec :: rest)
      = (if is_workday hour && spec.isSlow then
          SpecOutcome.skipped spec.remoteRepo
         else
          SpecOutcome.ran (backup_one exitOf dryRun cfg spec (stamp i)))
        :: backupLoop exitOf dryRun cfg hour stamp (i + 1) rest := rfl

/-- Pointwise description of the loop output. -/
lemma backupLoop_getElem (exitOf : List String → Int) (dryRun : Bool)
    (cfg : Config) (hour : Nat) (stamp : Nat → String) :
    ∀ (l : List BackupSpec) (i j : Nat),
      (backupLoop exitOf dryRun cfg hour stamp j l)[i]?
        = (l[i]?).map (fun spec =>
            if is_workday hour && spec.isSlow then
              SpecOutcome.skipped spec.remoteRepo
            else
              SpecOutcome.ran (backup_one exitOf dryRun cfg spec (stamp (j + i)))) := by
  intro l
  induction l with
  | nil => intro i j; rfl
  | cons spec rest ih =>
    intro i j
    cases i with
    | zero =>
      rw [backupLoop_cons]
      simp only [List.getElem?_cons_zero, Option.map_some', Nat.add_zero]
    | succ n =>
      rw [backupLoop_cons]
      simp only [List.getElem?_cons_succ]
      rw [ih n (j + 1)]
      simp only [show j + 1 + n = j + (n + 1) from by omega]

/-- Claim C6: the issued command sequence is the same under every
exit-status oracle (a failing create stops nothing), every spec yields an
outcome (a failing pipeline does not prevent later specs), and every
non-skipped spec gets all three of create, prune and list. -/
theorem backup_failure_isolation (exitOf exitOf' : List String → Int)
    (dryRun : Bool) (cfg : Config) (clock : Nat → Nat) (stamp : Nat → String) :
    ((backup exitOf dryRun cfg clock stamp).map SpecOutcome.cmds
      = (backup exitOf' dryRun cfg clock stamp).map SpecOutcome.cmds)
    ∧ (backup exitOf dryRun cfg clock stamp).length = cfg.backupSpecs.length
    ∧ ∀ i spec, cfg.backupSpecs[i]? = some spec →
        shouldRun (clock 0) spec = true →
        (backup exitOf dryRun cfg clock stamp)[i]?
          = some (SpecOutcome.ran (backup_one exitOf dryRun cfg spec (stamp i)))
        ∧ (backup_one exitOf dryRun cfg spec (stamp i)).map RunResult.loggedArgv
          = [createCmdline cfg spec (stamp i), pruneCmdline cfg spec,
             listCmdline cfg spec] := by
  refine ⟨backupLoop_map_cmds exitOf exitOf' dryRun cfg (clock 0) stamp
            cfg.backupSpecs 0,
          backupLoop_length exitOf dryRun cfg (clock 0) stamp cfg.backupSpecs 0,
          fun i spec hspec hrun => ?_⟩
  have hc : (is_workday (clock 0) && spec.isSlow) = false := by
    cases hv : is_workday (clock 0) && spec.isSlow
    · rfl
    · exfalso
      have h := hrun
      unfold shouldRun at h
      rw [hv] at h
      simp at h
  constructor
  · show (backupLoop exitOf dryRun cfg (clock 0) stamp 0 cfg.backupSpecs)[i]?
      = some (SpecOutcome.ran (backup_one exitOf dryRun cfg spec (stamp i)))
    rw [backupLoop_getElem, hspec]
    simp only [Option.map_some', Nat.zero_add, hc]
    rfl
  · rfl

/-- A constant-success exit oracle for concrete instantiations. -/
def zeroExit : List String → Int := fun _ => 0

/-- A constant formatted-timestamp reading for concrete instantiations. -/
def stampFn : Nat → String := fun _ => ("2026-01-01")

/-- A clock whose every reading is hour 10 (inside the workday window). -/
def dayClock : Nat → Nat := fun _ => 10

/-- A clock that starts at hour 4 and crosses into the workday window on
every later reading. -/
def nightThenDay : Nat → Nat := fun t => if t = 0 then 4 else 12

/-- A clock pinned at hour 4. -/
def nightClock : Nat → Nat := fun _ => 4

/-- A two-spec configuration (one slow, one normal) for concrete
instantiations. -/
def gateCfg : Config :=
  { backupHost := ("backuphost"), backupPassword := ("hunter2"),
    archiveNameFormat := ("%Y-%m-%d"), backupSpecs := [slowSpec, normalSpec],
    emailNumBackups := 8, emailFrom := ("from"), emailTo := [("to")] }

/-- Witness for claim C6: in the two-spec configuration at hour 10 the
normal spec (position 1) runs create, prune and list. -/
theorem backup_failure_isolation_witness :
    (backup zeroExit false gateCfg dayClock stampFn)[1]?
      = some (SpecOutcome.ran
          (backup_one zeroExit false gateCfg normalSpec (stampFn 1)))
    ∧ (backup_one zeroExit false gateCfg normalSpec (stampFn 1)).map
        RunResult.loggedArgv
      = [createCmdline gateCfg normalSpec (stampFn 1),
         pruneCmdline gateCfg normalSpec, listCmdline gateCfg normalSpec] :=
  (backup_failure_isolation zeroExit zeroExit false gateCfg dayClock
    stampFn).2.2 1 normalSpec rfl rfl

/-- Whether an outcome is not a schedule skip. -/
def notSkipped (o : SpecOutcome) : Bool := !o.isSkipped

/-- Outside the workday window no outcome is a skip. -/
lemma backupLoop_all_run (exitOf : List String → Int) (dryRun : Bool)
    (cfg : Config) (stamp : Nat → String) (hour : Nat) (h7 : ¬ 7 ≤ hour) :
    ∀ (l : List BackupSpec) (i : Nat),
      (backupLoop exitOf dryRun cfg hour stamp i l).all notSkipped = true := by
  intro l
  induction l with
  | nil => intro i; rfl
  | cons spec rest ih =>
    intro i
    have hw : is_workday hour = false := by simp [is_workday, h7]
    simp [backupLoop, hw, notSkipped, SpecOutcome.isSkipped, ih]

/-- Claim C10: the batch reads the clock once; two runs whose clocks agree
at the start produce identical outcomes no matter how the clock moves
later, and a batch started at hour 0-6 skips nothing even when later
readings fall inside the workday window. -/
theorem workday_gate_once (exitOf : List String → Int) (dryRun : Bool)
    (cfg : Config) (clock clock' : Nat → Nat) (stamp : Nat → String)
    (h0 : clock 0 = clock' 0) :
    backup exitOf dryRun cfg clock stamp = backup exitOf dryRun cfg clock' stamp
    ∧ (clock 0 ≤ 6 →
        (backup exitOf dryRun cfg clock stamp).all notSkipped = true) := by
  constructor
  · show backupLoop exitOf dryRun cfg (clock 0) stamp 0 cfg.backupSpecs
      = backupLoop exitOf dryRun cfg (clock' 0) stamp 0 cfg.backupSpecs
    rw [h0]
  · intro h6
    have h7 : ¬ 7 ≤ clock 0 := by omega
    exact backupLoop_all_run exitOf dryRun cfg stamp (clock 0) h7
      cfg.backupSpecs 0

/-- Witness for claim C10: starting at hour 4, the run with a clock that
drifts to hour 12 equals the run with a clock pinned at 4, and the slow
spec is not skipped. -/
theorem workday_gate_once_witness :
    backup zeroExit false gateCfg nightThenDay stampFn
      = backup zeroExit false gateCfg nightClock stampFn
    ∧ (backup zeroExit false gateCfg nightThenDay stampFn).all notSkipped
      = true :=
  ⟨(workday_gate_once zeroExit false gateCfg nightThenDay nightClock stampFn
      rfl).1,
   (workday_gate_once zeroExit false gateCfg nightThenDay nightClock stampFn
      rfl).2 (by decide)⟩

/-- The batch's log lines do not depend on the configured secret. -/
lemma backupLoop_loggedLines_password (exitOf : List String → Int)
    (dryRun : Bool) (cfg : Config) (p : String) (hour : Nat)
    (stamp : Nat → String) :
    ∀ (l : List BackupSpec) (i : Nat),
      (backupLoop exitOf dryRun (setPassword cfg p) hour stamp i l).map
          SpecOutcome.loggedLines
        = (backupLoop exitOf dryRun cfg hour stamp i l).map
            SpecOutcome.loggedLines := by
  intro l
  induction l with
  | nil => intro i; rfl
  | cons spec rest ih =>
    intro i
    rw [backupLoop_cons, backupLoop_cons, List.map_cons, List.map_cons,
      ih (i + 1)]
    rcases Bool.eq_false_or_eq_true (is_workday hour && spec.isSlow) with
      hc | hc <;> rw [hc] <;> rfl

/-- The report loop's log lines and digest do not depend on the configured
secret. -/
lemma reportsLoop_password
    (borgInfo : List String → Except String (List ArchiveSnapshot))
    (now : Int) (cfg : Config) (p : String) :
    ∀ l : List BackupSpec,
      reportsLoop borgInfo now (setPassword cfg p) l
        = reportsLoop borgInfo now cfg l := by
  intro l
  induction l with
  | nil => rfl
  | cons spec rest ih =>
    simp only [reportsLoop]
    rw [show infoCmd (setPassword cfg p) spec = infoCmd cfg spec from rfl, ih]

/-- Claim C8: every subprocess that needs the secret receives a freshly
built environment holding exactly `BORG_PASSPHRASE` (both the backup runner
and the metadata fetch), and the secret does not influence any logged line
nor the digest: replacing the secret leaves the batch's log lines and the
whole report output unchanged. -/
theorem secret_noninterference (cfg : Config) (p p' : String)
    (exitOf : List String → Int) (dryRun : Bool) (clock : Nat → Nat)
    (stamp : Nat → String)
    (borgInfo : List String → Except String (List ArchiveSnapshot))
    (now : Int) (cmdline : List String) (spec : BackupSpec) :
    ((run exitOf false (setPassword cfg p) cmdline).spawned
      = some { cmdline := cmdline, env := [(("BORG_PASSPHRASE"), p)] })
    ∧ (get_backup_stats borgInfo (setPassword cfg p) spec).1.env
      = [(("BORG_PASSPHRASE"), p)]
    ∧ ((backup exitOf dryRun (setPassword cfg p) clock stamp).map
        SpecOutcome.loggedLines
      = (backup exitOf dryRun (setPassword cfg p') clock stamp).map
          SpecOutcome.loggedLines)
    ∧ generate_reports borgInfo now (setPassword cfg p)
      = generate_reports borgInfo now (setPassword cfg p') := by
  refine ⟨rfl, rfl, ?_, ?_⟩
  · show (backupLoop exitOf dryRun (setPassword cfg p) (clock 0) stamp 0
        cfg.backupSpecs).map SpecOutcome.loggedLines
      = (backupLoop exitOf dryRun (setPassword cfg p') (clock 0) stamp 0
        cfg.backupSpecs).map SpecOutcome.loggedLines
    rw [backupLoop_loggedLines_password, backupLoop_loggedLines_password]
  · show reportsLoop borgInfo now (setPassword cfg p) cfg.backupSpecs
      = reportsLoop borgInfo now (setPassword cfg p') cfg.backupSpecs
    rw [reportsLoop_password, reportsLoop_password]

/-- Membership in the staleness warning group. -/
lemma mem_ageWarnList {w : Warning} {now : Int} {repo : String}
    {latest : ArchiveSnapshot} :
    w ∈ ageWarnList now repo latest
      ↔ (twoDays < now - latest.timestamp
          ∧ w = (repo, WarningKind.stale (now - latest.timestamp))) := by
  unfold ageWarnList
  by_cases hc : twoDays < now - latest.timestamp <;> simp [hc]

/-- Membership in the few-files warning group. -/
lemma mem_fileWarnList {w : Warning} {repo : String}
    {latest : ArchiveSnapshot} :
    w ∈ fileWarnList repo latest
      ↔ (latest.nfiles < 100 ∧ w = (repo, WarningKind.fewFiles)) := by
  unfold fileWarnList
  by_cases hc : latest.nfiles < 100 <;> simp [hc]

/-- Membership in the few-bytes warning group. -/
lemma mem_sizeWarnList {w : Warning} {repo : String}
    {latest : ArchiveSnapshot} :
    w ∈ sizeWarnList repo latest
      ↔ (latest.originalSize < 10000 ∧ w = (repo, WarningKind.fewBytes)) := by
  unfold sizeWarnList
  by_cases hc : latest.originalSize < 10000 <;> simp [hc]

/-- Membership in the file-count drift warning group. -/
lemma mem_fileDriftList {w : Warning} {repo : String}
    {e l : ArchiveSnapshot} :
    w ∈ fileDriftList repo e l
      ↔ (0 < e.nfiles
          ∧ 1 / 5 < |(l.nfiles : ℚ) / (e.nfiles : ℚ) - 1|
          ∧ w = (repo, WarningKind.driftFiles
              ((l.nfiles : ℚ) / (e.nfiles : ℚ) - 1))) := by
  unfold fileDriftList
  by_cases hg : 0 < e.nfiles <;>
    by_cases hq : 1 / 5 < |(l.nfiles : ℚ) / (e.nfiles : ℚ) - 1| <;>
      simp [hg, hq]

/-- Membership in the byte-size drift warning group. -/
lemma mem_byteDriftList {w : Warning} {repo : String}
    {e l : ArchiveSnapshot} :
    w ∈ byteDriftList repo e l
      ↔ (0 < e.originalSize
          ∧ 1 / 5 < |(l.originalSize : ℚ) / (e.originalSize : ℚ) - 1|
          ∧ w = (repo, WarningKind.driftBytes
              ((l.originalSize : ℚ) / (e.originalSize : ℚ) - 1))) := by
  unfold byteDriftList
  by_cases hg : 0 < e.originalSize <;>
    by_cases hq : 1 / 5 < |(l.originalSize : ℚ) / (e.originalSize : ℚ) - 1| <;>
      simp [hg, hq]

/-- Claim C5: on a non-empty history the latest snapshot's cells are
classified by the fixed thresholds, each rule independent and each adding
its own warning: age is bad iff strictly older than two days, file count is
bad iff below 100, size is bad iff below 10000 bytes; otherwise the cell is
good and no such warning is present. -/
theorem latest_cell_thresholds (now : Int) (spec : BackupSpec)
    (h : ArchiveSnapshot) (t : List ArchiveSnapshot) :
    generate_one_report now spec (h :: t)
      = Except.ok
          (reportFor now spec.remoteRepo (earliestOf h t) (latestOf h t))
    ∧ ((reportFor now spec.remoteRepo (earliestOf h t)
          (latestOf h t)).row.ageClass = CellClass.bad
        ↔ twoDays < now - (latestOf h t).timestamp)
    ∧ ((spec.remoteRepo, WarningKind.stale (now - (latestOf h t).timestamp))
        ∈ (reportFor now spec.remoteRepo (earliestOf h t)
            (latestOf h t)).warnings
        ↔ twoDays < now - (latestOf h t).timestamp)
    ∧ ((reportFor now spec.remoteRepo (earliestOf h t)
          (latestOf h t)).row.nfilesClass = CellClass.bad
        ↔ (latestOf h t).nfiles < 100)
    ∧ ((spec.remoteRepo, WarningKind.fewFiles)
        ∈ (reportFor now spec.remoteRepo (earliestOf h t)
            (latestOf h t)).warnings
        ↔ (latestOf h t).nfiles < 100)
    ∧ ((reportFor now spec.remoteRepo (earliestOf h t)
          (latestOf h t)).row.osizeClass = CellClass.bad
        ↔ (latestOf h t).originalSize < 10000)
    ∧ ((spec.remoteRepo, WarningKind.fewBytes)
        ∈ (reportFor now spec.remoteRepo (earliestOf h t)
            (latestOf h t)).warnings
        ↔ (latestOf h t).originalSize < 10000) := by
  refine ⟨rfl, ?_, ?_, ?_, ?_, ?_, ?_⟩
  · by_cases hc : twoDays < now - (latestOf h t).timestamp <;>
      simp [reportFor, hc]
  · simp [reportFor, List.mem_append, mem_ageWarnList, mem_fileWarnList,
      mem_sizeWarnList, mem_fileDriftList, mem_byteDriftList]
  · by_cases hc : (latestOf h t).nfiles < 100 <;> simp [reportFor, hc]
  · simp [reportFor, List.mem_append, mem_ageWarnList, mem_fileWarnList,
      mem_sizeWarnList, mem_fileDriftList, mem_byteDriftList]
  · by_cases hc : (latestOf h t).originalSize < 10000 <;>
      simp [reportFor, hc]
  · simp [reportFor, List.mem_append, mem_ageWarnList, mem_fileWarnList,
      mem_sizeWarnList, mem_fileDriftList, mem_byteDriftList]

/-- Claim C4: on a history whose earliest snapshot has a positive file
count, the file-drift warning is raised exactly when the relative change of
the file count between earliest and latest strictly exceeds 20 percent in
absolute value, and the identical rule with the original size (under its
own positivity guard) governs the byte-drift warning. -/
theorem drift_warning_iff (now : Int) (spec : BackupSpec)
    (h : ArchiveSnapshot) (t : List ArchiveSnapshot)
    (hf : 0 < (earliestOf h t).nfiles) :
    generate_one_report now spec (h :: t)
      = Except.ok
          (reportFor now spec.remoteRepo (earliestOf h t) (latestOf h t))
    ∧ ((spec.remoteRepo, WarningKind.driftFiles
          (((latestOf h t).nfiles : ℚ) / ((earliestOf h t).nfiles : ℚ) - 1))
        ∈ (reportFor now spec.remoteRepo (earliestOf h t)
            (latestOf h t)).warnings
        ↔ 1 / 5
          < |((latestOf h t).nfiles : ℚ) / ((earliestOf h t).nfiles : ℚ) - 1|)
    ∧ (0 < (earliestOf h t).originalSize →
        ((spec.remoteRepo, WarningKind.driftBytes
            (((latestOf h t).originalSize : ℚ)
              / ((earliestOf h t).originalSize : ℚ) - 1))
          ∈ (reportFor now spec.remoteRepo (earliestOf h t)
              (latestOf h t)).warnings
          ↔ 1 / 5
            < |((latestOf h t).originalSize : ℚ)
                / ((earliestOf h t).originalSize : ℚ) - 1|)) := by
  refine ⟨rfl, ?_, fun hb => ?_⟩
  · simp [reportFor, List.mem_append, mem_ageWarnList, mem_fileWarnList,
      mem_sizeWarnList, mem_fileDriftList, mem_byteDriftList, hf]
  · simp [reportFor, List.mem_append, mem_ageWarnList, mem_fileWarnList,
      mem_sizeWarnList, mem_fileDriftList, mem_byteDriftList, hb]

/-- A baseline snapshot with 1000 files, used as the earliest point. -/
def snapBase : ArchiveSnapshot :=
  { timestamp := 0, nfiles := 1000, originalSize := 50000,
    compressedSize := 900 }

/-- A later snapshot with 750 files (a 25 percent drop). -/
def snapDrop750 : ArchiveSnapshot :=
  { timestamp := 86400, nfiles := 750, originalSize := 50000,
    compressedSize := 900 }

/-- Witness for claim C4: on the two-point history 1000 to 750 files the
file-drift warning is present. -/
theorem drift_warning_iff_witness :
    (normalSpec.remoteRepo, WarningKind.driftFiles
        (((latestOf snapBase [snapDrop750]).nfiles : ℚ)
          / ((earliestOf snapBase [snapDrop750]).nfiles : ℚ) - 1))
      ∈ (reportFor 86400 normalSpec.remoteRepo
          (earliestOf snapBase [snapDrop750])
          (latestOf snapBase [snapDrop750])).warnings := by
  refine (drift_warning_iff 86400 normalSpec snapBase [snapDrop750]
    (by decide)).2.1.mpr ?_
  show (1 : ℚ) / 5 < |((750 : Nat) : ℚ) / ((1000 : Nat) : ℚ) - 1|
  have hv : ((750 : Nat) : ℚ) / ((1000 : Nat) : ℚ) - 1 = -(1 / 4) := by
    norm_num
  rw [hv, abs_neg, abs_of_nonneg (by norm_num : (0 : ℚ) ≤ 1 / 4)]
  norm_num

/-- First spec of the two-repository report configuration. -/
def specA : BackupSpec :=
  { remoteRepo := ("repoA"), localDirs := [("/a")], exclude := [],
    extraArgs := [], isSlow := false }

/-- Second spec of the two-repository report configuration. -/
def specB : BackupSpec :=
  { remoteRepo := ("repoB"), localDirs := [("/b")], exclude := [],
    extraArgs := [], isSlow := false }

/-- A two-repository report configuration. -/
def cfgAB : Config :=
  { backupHost := ("host"), backupPassword := ("pw"),
    archiveNameFormat := ("%Y"), backupSpecs := [specA, specB],
    emailNumBackups := 5, emailFrom := ("from"), emailTo := [("to")] }

/-- A healthy snapshot for the second repository. -/
def goodSnap : ArchiveSnapshot :=
  { timestamp := 0, nfiles := 1000, originalSize := 20000,
    compressedSize := 500 }

/-- An archive-engine oracle that fails the metadata query of exactly one
repository (`repoA`, mirroring `subprocess.check_output` raising on a
non-zero exit) and answers every other query with a healthy history. -/
def failingFetch : List String → Except String (List ArchiveSnapshot) :=
  fun cmd =>
    if cmd = infoCmd cfgAB specA then Except.error ("CalledProcessError")
    else Except.ok [goodSnap]

/-- Claim C2 (refuting instance, recorded code bug): with two configured
repositories and a metadata-query failure on exactly the first one, the
report run does not produce one row per repository; the uncaught failure
aborts the entire digest, so no rows at all are produced. -/
theorem generate_reports_aborts_on_single_failure :
    cfgAB.backupSpecs.length = 2
    ∧ failingFetch (infoCmd cfgAB specA) = Except.error ("CalledProcessError")
    ∧ failingFetch (infoCmd cfgAB specB) = Except.ok [goodSnap]
    ∧ (generate_reports failingFetch 0 cfgAB).2
      = Except.error ("CalledProcessError") :=
  ⟨rfl, rfl, rfl, rfl⟩
